import Mathlib

set_option maxRecDepth 8000

set_option maxHeartbeats 1000000

/-
Verification of the heuristic transcript-scoring pipeline of the
AI-Language-Teacher backend.

The Lean definitions below are a shallow embedding of the Python source:

* `backend/app/services/llama_analysis.py`
    `_fallback_evaluation`, `_llm_based_evaluation`, `analyze_conversation`,
    `_enhanced_comprehension_analysis`, `_analyze_vocabulary`,
    `_determine_proficiency_level`
* `backend/app/services/gpt_analysis.py`
    `GPTAnalysisService.__init__`, `analyze_conversation`,
    `_parse_gpt_response`, `_fallback_parse`
* `backend/app/services/conversation_service.py`
    `get_user_progress`
* `backend/app/main.py`
    the analysis-service selection in `test_analyze_conversation`

Python strings are Lean `String`s, JSON numbers are `ℚ` (exact rational
arithmetic in place of floats; every constant in the source is a short
decimal, represented exactly), dictionaries with known keys are structures
with `Option` fields (`.get(k, d)` becomes `Option.getD`), exceptions are
`Except`, and the external LLM generation / JSON parsing steps are oracle
parameters, since their behaviour is outside the program.
-/

/-- Helper for `pyWords`: walk the characters, accumulating the current
word (in reverse). -/
def pyWordsAux : List Char → List Char → List String
  | [], acc => if acc = [] then [] else [String.mk acc.reverse]
  | c :: cs, acc =>
    if c.isWhitespace then
      if acc = [] then pyWordsAux cs []
      else String.mk acc.reverse :: pyWordsAux cs []
    else pyWordsAux cs (c :: acc)

/-- Python `str.split()` with no separator: split on whitespace runs and
drop empty pieces. -/
def pyWords (s : String) : List String :=
  pyWordsAux s.data []

/-- The nested `detailed_feedback` dictionary.  The LLM may supply any
subset of the keys the code later reads with `.get`, so every field is
optional; the concrete dictionary built by `_fallback_evaluation` has every
field present. -/
structure FeedbackDict where
  grammar : Option String
  vocabulary : Option String
  fluency : Option String
  comprehension : Option String
  strengths : Option (List String)
  improvements : Option (List String)
  recommendations : Option (List String)
deriving DecidableEq

/-- The empty dictionary `{}` used as default for `detailed_feedback`. -/
def emptyFeedback : FeedbackDict :=
  ⟨none, none, none, none, none, none, none⟩

/-- The `detailed_feedback` dictionary built by `_fallback_evaluation`. -/
def fallbackFeedback : FeedbackDict where
  grammar := some "Basic evaluation - please provide more text for detailed analysis"
  vocabulary := some "Basic evaluation - please provide more text for detailed analysis"
  fluency := some "Basic evaluation - please provide more text for detailed analysis"
  comprehension := some "Basic evaluation - please provide more text for detailed analysis"
  strengths := some ["Attempted communication"]
  improvements := some ["Provide more complete sentences"]
  recommendations := some ["Try writing longer, more detailed responses"]

/-- The dictionary returned by `_llm_based_evaluation` /
`_fallback_evaluation` (keys `grammar_score` .. `evaluation_method`). -/
structure EvalDict where
  grammar_score : ℚ
  vocabulary_score : ℚ
  fluency_score : ℚ
  comprehension_score : ℚ
  overall_score : ℚ
  proficiency_level : String
  detailed_feedback : FeedbackDict
  evaluation_method : String
deriving DecidableEq

/-- `LLaMAAnalysisService._fallback_evaluation` (llama_analysis.py 203-235). -/
def fallbackEvaluation (transcript : String) : EvalDict :=
  let words := pyWords transcript
  let word_count := words.length
  let base_score : ℚ :=
    if word_count < 2 then 1
    else if word_count < 5 then 3
    else if word_count < 10 then 8
    else 15
  { grammar_score := base_score
    vocabulary_score := base_score
    fluency_score := base_score
    comprehension_score := base_score
    overall_score := base_score * 4
    proficiency_level := if word_count < 5 then "A1" else "B1"
    detailed_feedback := fallbackFeedback
    evaluation_method := "Fallback" }

/-- `_fallback_evaluation` as a function of the word count alone (the
claim C4 factorisation target). -/
def fallbackEvalOfCount (word_count : ℕ) : EvalDict :=
  let base_score : ℚ :=
    if word_count < 2 then 1
    else if word_count < 5 then 3
    else if word_count < 10 then 8
    else 15
  { grammar_score := base_score
    vocabulary_score := base_score
    fluency_score := base_score
    comprehension_score := base_score
    overall_score := base_score * 4
    proficiency_level := if word_count < 5 then "A1" else "B1"
    detailed_feedback := fallbackFeedback
    evaluation_method := "Fallback" }

/-- `LLaMAAnalysisService._determine_proficiency_level`
(llama_analysis.py 901-914). -/
def determineProficiencyLevel (score : ℚ) : String :=
  if score ≥ 70 then "C2"
  else if score ≥ 55 then "C1"
  else if score ≥ 40 then "B2"
  else if score ≥ 25 then "B1"
  else if score ≥ 15 then "A2"
  else "A1"

/-- Position of a CEFR label in the order A1 < A2 < B1 < B2 < C1 < C2. -/
def cefrIndex (level : String) : ℕ :=
  if level = "A1" then 0
  else if level = "A2" then 1
  else if level = "B1" then 2
  else if level = "B2" then 3
  else if level = "C1" then 4
  else 5

/-- The fields of the LLM's JSON answer that `_llm_based_evaluation` reads
with `.get`.  The LLM may omit any of them. -/
structure EvalJson where
  grammar_score : Option ℚ
  vocabulary_score : Option ℚ
  fluency_score : Option ℚ
  comprehension_score : Option ℚ
  proficiency_level : Option String
  detailed_feedback : Option FeedbackDict
deriving DecidableEq

/-- `max(0, min(25, x))`, the bound validation applied to every dimension
score taken from the LLM JSON (llama_analysis.py 177-180). -/
def clamp25 (x : ℚ) : ℚ := max 0 (min 25 x)

/-- The successful branch of `_llm_based_evaluation` (llama_analysis.py
174-193): clamp the four scores, recompute `overall_score` as their sum. -/
def llmSuccessEval (data : EvalJson) : EvalDict :=
  let grammar_score := clamp25 (data.grammar_score.getD 0)
  let vocabulary_score := clamp25 (data.vocabulary_score.getD 0)
  let fluency_score := clamp25 (data.fluency_score.getD 0)
  let comprehension_score := clamp25 (data.comprehension_score.getD 0)
  let overall_score :=
    grammar_score + vocabulary_score + fluency_score + comprehension_score
  { grammar_score := grammar_score
    vocabulary_score := vocabulary_score
    fluency_score := fluency_score
    comprehension_score := comprehension_score
    overall_score := overall_score
    proficiency_level := data.proficiency_level.getD "A1"
    detailed_feedback := data.detailed_feedback.getD emptyFeedback
    evaluation_method := "LLM-based" }

/-- `LLaMAAnalysisService._llm_based_evaluation` (llama_analysis.py
130-201).  The LLaMA generation step is the oracle `gen` (`.error` models a
raised exception), JSON parsing is the oracle `parseJson` (`none` models
`json.JSONDecodeError`); both failure paths return
`_fallback_evaluation(transcript)`. -/
def llmBasedEvaluation (gen : Except Unit String)
    (parseJson : String → Option EvalJson) (transcript : String) : EvalDict :=
  match gen with
  | .error _ => fallbackEvaluation transcript
  | .ok response =>
    match parseJson response with
    | none => fallbackEvaluation transcript
    | some data => llmSuccessEval data

/-- The `detailed_feedback` field of an `AnalysisResult`: the dictionary
from the evaluation, or the `{"error": "Analysis failed"}` dictionary of
the error path. -/
inductive FeedbackValue where
  | dict (d : FeedbackDict)
  | errorMsg (s : String)
deriving DecidableEq

/-- The `AnalysisResult` dataclass (llama_analysis.py 46-61).
`grammar_errors` and `vocabulary_analysis` are lists of one-key
dictionaries `{"feedback": s}`; they are modelled by the list of those
feedback strings. -/
structure AnalysisResult where
  overall_score : ℚ
  grammar_score : ℚ
  vocabulary_score : ℚ
  fluency_score : ℚ
  pronunciation_score : ℚ
  comprehension_score : ℚ
  proficiency_level : String
  strengths : List String
  areas_for_improvement : List String
  recommendations : List String
  grammar_errors : List String
  vocabulary_analysis : List String
  detailed_feedback : FeedbackValue
deriving DecidableEq

/-- The `AnalysisResult` built from the evaluation dictionary on the
successful path of `analyze_conversation` (llama_analysis.py 258-282). -/
def buildAnalysisResult (e : EvalDict) : AnalysisResult :=
  let d := e.detailed_feedback
  { overall_score := e.overall_score
    grammar_score := e.grammar_score
    vocabulary_score := e.vocabulary_score
    fluency_score := e.fluency_score
    pronunciation_score := 0
    comprehension_score := e.comprehension_score
    proficiency_level := e.proficiency_level
    strengths := d.strengths.getD ["Communication attempted"]
    areas_for_improvement := d.improvements.getD ["Continue practicing"]
    recommendations := d.recommendations.getD ["Keep learning"]
    grammar_errors := [d.grammar.getD "Grammar analysis completed"]
    vocabulary_analysis := [d.vocabulary.getD "Vocabulary analysis completed"]
    detailed_feedback := .dict d }

/-- The fixed fallback `AnalysisResult` of the `except` branch of
`analyze_conversation` (llama_analysis.py 287-301). -/
def errorFallbackResult : AnalysisResult :=
  { overall_score := 5
    grammar_score := 1
    vocabulary_score := 1
    fluency_score := 1
    pronunciation_score := 0
    comprehension_score := 2
    proficiency_level := "A1"
    strengths := ["Attempted communication"]
    areas_for_improvement := ["Try again with a complete sentence"]
    recommendations := ["Check your internet connection"]
    grammar_errors := ["Analysis failed - please try again"]
    vocabulary_analysis := ["Analysis failed - please try again"]
    detailed_feedback := .errorMsg "Analysis failed" }

/-- `LLaMAAnalysisService.analyze_conversation` (llama_analysis.py
237-301): the `try` body (evaluation plus result construction) is
`body`; any exception (`.error`) yields the fixed fallback result. -/
def analyzeConversation (body : Except Unit EvalDict) : AnalysisResult :=
  match body with
  | .ok e => buildAnalysisResult e
  | .error _ => errorFallbackResult

/-- `analyze_conversation` on the normal path, wiring the oracles through
`_llm_based_evaluation` (which is itself total, so the body succeeds). -/
def analyzeConversationRun (gen : Except Unit String)
    (parseJson : String → Option EvalJson) (transcript : String) :
    AnalysisResult :=
  analyzeConversation (.ok (llmBasedEvaluation gen parseJson transcript))

/-- Python `str.split('.')`: split at every dot, keeping empty pieces. -/
def pySplitDotAux : List Char → List Char → List String
  | [], acc => [String.mk acc.reverse]
  | c :: cs, acc =>
    if c = '.' then String.mk acc.reverse :: pySplitDotAux cs []
    else pySplitDotAux cs (c :: acc)

/-- Python `text.split('.')`. -/
def pySplitDot (s : String) : List String :=
  pySplitDotAux s.data []

/-- Python `str.lower()`. -/
def pyLower (s : String) : String :=
  String.mk (s.data.map Char.toLower)

/-- `needle.isPrefixOf hay` on character lists, by hand so the kernel can
evaluate it. -/
def startsWithChars : List Char → List Char → Bool
  | [], _ => true
  | _ :: _, [] => false
  | a :: as, b :: bs => a = b && startsWithChars as bs

/-- Substring test on character lists. -/
def containsChars (needle : List Char) : List Char → Bool
  | [] => needle.isEmpty
  | c :: cs => startsWithChars needle (c :: cs) || containsChars needle cs

/-- Python `sub in hay` for strings. -/
def pyContains (hay sub : String) : Bool :=
  containsChars sub.data hay.data

/-- The `transition_words` list of `_enhanced_comprehension_analysis`
(llama_analysis.py 711, duplicate included). -/
def transitionWords : List String :=
  ["however", "therefore", "moreover", "furthermore", "consequently",
   "meanwhile", "nevertheless", "also", "additionally", "furthermore"]

/-- The `complex_conjunctions` list (llama_analysis.py 716). -/
def complexConjunctions : List String :=
  ["although", "despite", "whereas", "while", "since", "because", "if",
   "when", "after", "before"]

/-- `LLaMAAnalysisService._enhanced_comprehension_analysis`
(llama_analysis.py 648-729).  The `context` argument is unused, exactly as
in the source. -/
def enhancedComprehensionAnalysis (text : String) (_context : Option String) : ℚ :=
  let words := pyWords text
  let word_count := words.length
  if word_count = 0 then 0
  else
    let lengthScore : ℚ :=
      if word_count ≥ 30 then 6
      else if word_count ≥ 20 then 5
      else if word_count ≥ 15 then 4
      else if word_count ≥ 10 then 3
      else if word_count ≥ 5 then 0.5
      else if word_count ≥ 3 then 0.2
      else if word_count ≥ 2 then 0.1
      else 0.05
    let sentences := pySplitDot text
    let avg_sentence_length : ℚ :=
      if sentences.length = 0 then 0
      else (word_count : ℚ) / (sentences.length : ℚ)
    let sentenceScore : ℚ :=
      if avg_sentence_length ≥ 12 then 6
      else if avg_sentence_length ≥ 8 then 5
      else if avg_sentence_length ≥ 6 then 4
      else if avg_sentence_length ≥ 4 then 3
      else 2
    let complex_words := words.filter (fun w => 5 < w.length)
    let sophistication_ratio : ℚ := (complex_words.length : ℚ) / (word_count : ℚ)
    let sophisticationScore : ℚ :=
      if sophistication_ratio ≥ 0.2 then 6
      else if sophistication_ratio ≥ 0.15 then 5
      else if sophistication_ratio ≥ 0.1 then 4
      else if sophistication_ratio ≥ 0.05 then 3
      else 2
    let coherence1 : ℚ :=
      if transitionWords.any (fun w => pyContains (pyLower text) (pyLower w))
      then 3 else 0
    let coherence2 : ℚ := coherence1 +
      (if complexConjunctions.any (fun w => pyContains (pyLower text) (pyLower w))
       then 2 else 0)
    let coherence_score : ℚ := coherence2 +
      (if pyContains (pyLower text) "which" || pyContains (pyLower text) "that" ||
          pyContains (pyLower text) "who"
       then 1 else 0)
    let score := lengthScore + sentenceScore + sophisticationScore +
      min 6 coherence_score
    let min_score : ℚ := min 6 ((word_count : ℚ) / 3)
    min 20 (max min_score score)

/-- The word/sentence statistics that `_enhanced_comprehension_analysis`
reads off the input text. -/
structure ComprehensionStats where
  wordCount : ℕ
  sentenceCount : ℕ
  complexWordCount : ℕ
  hasTransition : Bool
  hasConjunction : Bool
  hasRelative : Bool
deriving DecidableEq

/-- The statistics of a text, extracted as the source does. -/
def comprehensionStats (text : String) : ComprehensionStats where
  wordCount := (pyWords text).length
  sentenceCount := (pySplitDot text).length
  complexWordCount := ((pyWords text).filter (fun w => 5 < w.length)).length
  hasTransition :=
    transitionWords.any (fun w => pyContains (pyLower text) (pyLower w))
  hasConjunction :=
    complexConjunctions.any (fun w => pyContains (pyLower text) (pyLower w))
  hasRelative :=
    pyContains (pyLower text) "which" || pyContains (pyLower text) "that" ||
      pyContains (pyLower text) "who"

/-- The arithmetic of `_enhanced_comprehension_analysis` as a function of
the statistics alone. -/
def comprehensionScoreOfStats (st : ComprehensionStats) : ℚ :=
  if st.wordCount = 0 then 0
  else
    let lengthScore : ℚ :=
      if st.wordCount ≥ 30 then 6
      else if st.wordCount ≥ 20 then 5
      else if st.wordCount ≥ 15 then 4
      else if st.wordCount ≥ 10 then 3
      else if st.wordCount ≥ 5 then 0.5
      else if st.wordCount ≥ 3 then 0.2
      else if st.wordCount ≥ 2 then 0.1
      else 0.05
    let avg_sentence_length : ℚ :=
      if st.sentenceCount = 0 then 0
      else (st.wordCount : ℚ) / (st.sentenceCount : ℚ)
    let sentenceScore : ℚ :=
      if avg_sentence_length ≥ 12 then 6
      else if avg_sentence_length ≥ 8 then 5
      else if avg_sentence_length ≥ 6 then 4
      else if avg_sentence_length ≥ 4 then 3
      else 2
    let sophistication_ratio : ℚ := (st.complexWordCount : ℚ) / (st.wordCount : ℚ)
    let sophisticationScore : ℚ :=
      if sophistication_ratio ≥ 0.2 then 6
      else if sophistication_ratio ≥ 0.15 then 5
      else if sophistication_ratio ≥ 0.1 then 4
      else if sophistication_ratio ≥ 0.05 then 3
      else 2
    let coherence1 : ℚ := if st.hasTransition then 3 else 0
    let coherence2 : ℚ := coherence1 + (if st.hasConjunction then 2 else 0)
    let coherence_score : ℚ := coherence2 + (if st.hasRelative then 1 else 0)
    let score := lengthScore + sentenceScore + sophisticationScore +
      min 6 coherence_score
    let min_score : ℚ := min 6 ((st.wordCount : ℚ) / 3)
    min 20 (max min_score score)

/-- Python truthiness of an `Optional[str]`: `None` and `""` are falsy. -/
def pyTruthy (s : Option String) : Bool :=
  match s with
  | none => false
  | some v => v ≠ ""

/-- Which service analyses a transcript. -/
inductive AnalysisService where
  | gpt
  | llama
deriving DecidableEq

/-- The service selection of `test_analyze_conversation` (main.py
102-116): GPT iff `settings.USE_GPT_ANALYSIS and settings.OPENAI_API_KEY`
is truthy, otherwise LLaMA. -/
def chooseAnalysisService (useGptAnalysis : Bool) (openaiApiKey : Option String) :
    AnalysisService :=
  if useGptAnalysis && pyTruthy openaiApiKey then .gpt else .llama

/-- `GPTAnalysisService.__init__` (gpt_analysis.py 42-52): the client is
created iff the `openai` import succeeded and an API key was provided. -/
def gptClientInit (openaiAvailable : Bool) (apiKey : Option String) : Option Unit :=
  if openaiAvailable && pyTruthy apiKey then some () else none

/-- The notes of the `detailed_feedback` dictionary built by
`_fallback_parse` (gpt_analysis.py 249-255). -/
structure GptFeedbackNotes where
  grammar_notes : String
  vocabulary_notes : String
  fluency_notes : String
  pronunciation_notes : String
  comprehension_notes : String
deriving DecidableEq

/-- The analysis dictionary produced by
`GPTAnalysisService._parse_gpt_response` / `_fallback_parse`, projected
onto the keys the service later reads. -/
structure ParsedData where
  overall_score : ℚ
  grammar_score : ℚ
  vocabulary_score : ℚ
  fluency_score : ℚ
  pronunciation_score : ℚ
  comprehension_score : ℚ
  proficiency_level : String
  strengths : List String
  areas_for_improvement : List String
  recommendations : List String
  detailed_feedback : GptFeedbackNotes
  grammar_errors : List String
  vocabulary_analysis : List String
deriving DecidableEq

/-- Exceptions `GPTAnalysisService.analyze_conversation` can raise. -/
inductive GptError where
  | runtimeError (msg : String)
  | reraised
deriving DecidableEq

/-- `GPTAnalysisService.analyze_conversation` (gpt_analysis.py 54-98):
raise `RuntimeError` when the client was never initialised; otherwise run
the GPT call/parse (the oracle `callOutcome`), re-raising its failure. -/
def gptAnalyzeConversation (client : Option Unit)
    (callOutcome : Except Unit ParsedData) : Except GptError ParsedData :=
  match client with
  | none => .error (.runtimeError
      "GPT client not initialized. Please provide OpenAI API key.")
  | some _ =>
    match callOutcome with
    | .error _ => .error .reraised
    | .ok d => .ok d

/-- One row of the trend query of `get_user_progress`
(conversation_service.py 150-162). -/
structure TrendRow where
  grammar_score : ℚ
  vocabulary_score : ℚ
  fluency_score : ℚ
  pronunciation_score : ℚ
  comprehension_score : ℚ
deriving DecidableEq

/-- The scalar results of the five database queries of
`get_user_progress`; `none` models a SQL `NULL` scalar. -/
structure ProgressQueries where
  totalConversations : Option ℕ
  avgScore : Option ℚ
  currentLevel : Option String
  lastConversationDate : Option ℤ
  trendRows : List TrendRow
deriving DecidableEq

/-- Python `x or d` for an optional integer (`None` and `0` are falsy). -/
def pyOrNat (x : Option ℕ) (d : ℕ) : ℕ :=
  match x with
  | none => d
  | some v => if v = 0 then d else v

/-- Python `x or d` for an optional float (`None` and `0.0` are falsy). -/
def pyOrRat (x : Option ℚ) (d : ℚ) : ℚ :=
  match x with
  | none => d
  | some v => if v = 0 then d else v

/-- Python `x or d` for an optional string (`None` and `""` are falsy). -/
def pyOrStr (x : Option String) (d : String) : String :=
  match x with
  | none => d
  | some v => if v = "" then d else v

/-- Round to the nearest integer, ties to even (Python `round`). -/
def roundHalfEven (q : ℚ) : ℤ :=
  let f := ⌊q⌋
  let r := q - f
  if r < 1 / 2 then f
  else if r > 1 / 2 then f + 1
  else if f % 2 = 0 then f else f + 1

/-- Python `round(x, 2)`. -/
def pyRound2 (q : ℚ) : ℚ :=
  (roundHalfEven (q * 100) : ℚ) / 100

/-- The progress dictionary returned by `get_user_progress`
(conversation_service.py 173-197). -/
structure Progress where
  total_conversations : ℕ
  average_score : ℚ
  current_level : String
  last_conversation_date : Option ℤ
  grammar_trend : List ℚ
  vocabulary_trend : List ℚ
  fluency_trend : List ℚ
  pronunciation_trend : List ℚ
  comprehension_trend : List ℚ
deriving DecidableEq

/-- The fixed dictionary of the `except` branch of `get_user_progress`
(conversation_service.py 186-197). -/
def defaultProgress : Progress :=
  { total_conversations := 0
    average_score := 0
    current_level := "A1"
    last_conversation_date := none
    grammar_trend := []
    vocabulary_trend := []
    fluency_trend := []
    pronunciation_trend := []
    comprehension_trend := [] }

/-- `ConversationService.get_user_progress` (conversation_service.py
109-197).  The whole `try` block of database queries is the oracle
`queries`; any raised exception (`.error`) yields the default
dictionary. -/
def getUserProgress (queries : Except Unit ProgressQueries) : Progress :=
  match queries with
  | .error _ => defaultProgress
  | .ok q =>
    { total_conversations := pyOrNat q.totalConversations 0
      average_score := pyRound2 (pyOrRat q.avgScore 0)
      current_level := pyOrStr q.currentLevel "A1"
      last_conversation_date := q.lastConversationDate
      grammar_trend := q.trendRows.map TrendRow.grammar_score
      vocabulary_trend := q.trendRows.map TrendRow.vocabulary_score
      fluency_trend := q.trendRows.map TrendRow.fluency_score
      pronunciation_trend := q.trendRows.map TrendRow.pronunciation_score
      comprehension_trend := q.trendRows.map TrendRow.comprehension_score }

/-- The character `\x7b` (opening curly brace). -/
def openBraceChar : Char := Char.ofNat 123

/-- The character `\x7d` (closing curly brace). -/
def closeBraceChar : Char := Char.ofNat 125

/-- Match a literal pattern case-insensitively at the head of the text,
returning the remaining text (the `re.IGNORECASE` treatment of literal
characters). -/
def ciMatchChars : List Char → List Char → Option (List Char)
  | [], s => some s
  | _ :: _, [] => none
  | p :: ps, c :: cs => if c.toLower = p.toLower then ciMatchChars ps cs else none

/-- Greedily skip characters of a class (`[...]*`).  Correct here because
the characters that may follow the class never belong to it. -/
def skipCharClass (mem : Char → Bool) : List Char → List Char
  | [] => []
  | c :: cs => if mem c then skipCharClass mem cs else c :: cs

/-- The class `[_\s]`. -/
def isUnderscoreOrSpace (c : Char) : Bool := c = '_' || c.isWhitespace

/-- The class `[:\s]`. -/
def isColonOrSpace (c : Char) : Bool := c = ':' || c.isWhitespace

/-- Numeric value of a digit string. -/
def digitsToNat (ds : List Char) : ℕ :=
  ds.foldl (fun n c => 10 * n + (c.toNat - 48)) 0

/-- Match `\d+(?:\.\d+)?` at the head of the text and return its value
(`float` of the matched group). -/
def matchNumberAt (s : List Char) : Option ℚ :=
  let intDigits := s.takeWhile Char.isDigit
  if intDigits = [] then none
  else
    match s.drop intDigits.length with
    | '.' :: r2 =>
      let fracDigits := r2.takeWhile Char.isDigit
      if fracDigits = [] then some ((digitsToNat intDigits : ℚ))
      else some ((digitsToNat intDigits : ℚ) +
        (digitsToNat fracDigits : ℚ) / (10 : ℚ) ^ fracDigits.length)
    | _ => some ((digitsToNat intDigits : ℚ))

/-- Match the pattern `{keyword}[_\s]*score[:\s]*(\d+(?:\.\d+)?)` at the
head of the text (gpt_analysis.py 221, 227). -/
def matchScoreAt (kw : List Char) (s : List Char) : Option ℚ :=
  match ciMatchChars kw s with
  | none => none
  | some r1 =>
    match ciMatchChars "score".data (skipCharClass isUnderscoreOrSpace r1) with
    | none => none
    | some r3 => matchNumberAt (skipCharClass isColonOrSpace r3)

/-- `re.search` for the score pattern: try every start position, leftmost
match wins. -/
def searchScoreAux (kw : List Char) : List Char → Option ℚ
  | [] => matchScoreAt kw []
  | c :: cs =>
    match matchScoreAt kw (c :: cs) with
    | some v => some v
    | none => searchScoreAux kw cs

/-- `re.search(rf"{keyword}[_\s]*score[:\s]*(\d+(?:\.\d+)?)", text, re.IGNORECASE)`,
returning `float` of the captured group. -/
def searchScore (keyword text : String) : Option ℚ :=
  searchScoreAux keyword.data text.data

/-- Match `proficiency[_\s]*level[:\s]*([A-C][1-2])` (case-insensitive) at
the head of the text, returning the group upper-cased
(gpt_analysis.py 233-235). -/
def matchLevelAt (s : List Char) : Option String :=
  match ciMatchChars "proficiency".data s with
  | none => none
  | some r1 =>
    match ciMatchChars "level".data (skipCharClass isUnderscoreOrSpace r1) with
    | none => none
    | some r3 =>
      match skipCharClass isColonOrSpace r3 with
      | c1 :: c2 :: _ =>
        if (c1.toLower = 'a' || c1.toLower = 'b' || c1.toLower = 'c') &&
            (c2 = '1' || c2 = '2')
        then some (String.mk [c1.toUpper, c2])
        else none
      | _ => none

/-- `re.search` for the proficiency-level pattern. -/
def searchLevelAux : List Char → Option String
  | [] => matchLevelAt []
  | c :: cs =>
    match matchLevelAt (c :: cs) with
    | some v => some v
    | none => searchLevelAux cs

/-- Leftmost proficiency-level match in the text. -/
def searchLevel (text : String) : Option String :=
  searchLevelAux text.data

/-- The suffix of the text starting at its first opening brace. -/
def suffixFromOpenBrace : List Char → Option (List Char)
  | [] => none
  | c :: cs => if c = openBraceChar then some (c :: cs) else suffixFromOpenBrace cs

/-- Index of the last closing brace of the list, if any. -/
def lastCloseBraceIdx (l : List Char) : Option ℕ :=
  l.enum.foldl (fun acc p => if p.2 = closeBraceChar then some p.1 else acc) none

/-- `re.search(r"\{.*\}", response_text, re.DOTALL)` (gpt_analysis.py
203): greedy, so the match runs from the first opening brace to the last
closing brace after it. -/
def jsonCandidate (s : String) : Option String :=
  match suffixFromOpenBrace s.data with
  | none => none
  | some l =>
    match lastCloseBraceIdx l with
    | none => none
    | some j => if 1 ≤ j then some (String.mk (l.take (j + 1))) else none

/-- The `detailed_feedback` notes of the `_fallback_parse` default record
(gpt_analysis.py 249-255). -/
def gptDefaultNotes : GptFeedbackNotes :=
  { grammar_notes := "Basic grammar structure observed"
    vocabulary_notes := "Appropriate word choice"
    fluency_notes := "Clear communication"
    pronunciation_notes := "Text-based analysis"
    comprehension_notes := "Good understanding demonstrated" }

/-- `GPTAnalysisService._fallback_parse` (gpt_analysis.py 215-258):
regex-extracted scores where the patterns match, hand-tuned defaults
elsewhere. -/
def fallbackParse (text : String) : ParsedData :=
  { overall_score := (searchScore "overall" text).getD 50
    grammar_score := (searchScore "grammar" text).getD 12.5
    vocabulary_score := (searchScore "vocabulary" text).getD 10
    fluency_score := (searchScore "fluency" text).getD 10
    pronunciation_score := (searchScore "pronunciation" text).getD 7.5
    comprehension_score := (searchScore "comprehension" text).getD 10
    proficiency_level := (searchLevel text).getD "B1"
    strengths := ["Good communication effort", "Clear expression"]
    areas_for_improvement := ["Continue practicing", "Expand vocabulary"]
    recommendations := ["Keep practicing regularly", "Read more English texts"]
    detailed_feedback := gptDefaultNotes
    grammar_errors := []
    vocabulary_analysis := [] }

/-- `GPTAnalysisService._parse_gpt_response` (gpt_analysis.py 199-213):
extract a brace-delimited JSON candidate and `json.loads` it (the oracle
`jsonLoads`, `none` modelling `json.JSONDecodeError`); on any failure fall
back to `_fallback_parse`. -/
def parseGptResponse (jsonLoads : String → Option ParsedData) (text : String) :
    ParsedData :=
  match jsonCandidate text with
  | some js =>
    match jsonLoads js with
    | some d => d
    | none => fallbackParse text
  | none => fallbackParse text

/-- The `common_words` spelling dictionary of `_analyze_vocabulary`
(llama_analysis.py 393-464), transcribed in source order (the Python set
literal contains a few repeated entries; repetition does not affect
membership). -/
def commonWords : List String :=
  ["the", "a", "an", "and", "or", "but", "in", "on", "at", "to", "for", "of", "with", "by",
   "is", "are", "was", "were", "be", "been", "being", "have", "has", "had", "do", "does", "did",
   "will", "would", "could", "should", "may", "might", "can", "must", "shall",
   "i", "you", "he", "she", "it", "we", "they", "me", "him", "her", "us", "them",
   "this", "that", "these", "those", "my", "your", "his", "her", "its", "our", "their",
   "hello", "hi", "how", "are", "you", "fine", "good", "bad", "yes", "no", "thank", "thanks",
   "please", "sorry", "excuse", "name", "what", "where", "when", "why", "who", "which",
   "go", "come", "see", "look", "hear", "listen", "speak", "talk", "say", "tell",
   "know", "think", "believe", "want", "need", "like", "love", "hate", "feel",
   "make", "take", "give", "get", "put", "find", "work", "play", "eat", "drink",
   "sleep", "walk", "run", "sit", "stand", "open", "close", "start", "stop", "help",
   "time", "day", "night", "morning", "evening", "week", "month", "year", "today", "tomorrow",
   "yesterday", "now", "then", "here", "there", "up", "down", "left", "right", "front", "back",
   "big", "small", "large", "little", "old", "new", "young", "hot", "cold", "warm", "cool",
   "fast", "slow", "quick", "easy", "hard", "difficult", "simple", "complex", "important",
   "beautiful", "ugly", "nice", "great", "wonderful", "terrible", "excellent", "perfect",
   "happy", "sad", "angry", "excited", "nervous", "calm", "tired", "busy", "free", "ready",
   "sure", "certain", "possible", "impossible", "necessary", "enough", "too", "very", "quite",
   "really", "actually", "finally", "suddenly", "usually", "always", "never", "sometimes",
   "often", "rarely", "almost", "nearly", "exactly", "about", "around", "between", "among",
   "through", "across", "over", "under", "above", "below", "inside", "outside", "near", "far",
   "first", "second", "third", "last", "next", "previous", "other", "another", "same", "different",
   "each", "every", "all", "some", "many", "much", "few", "little", "more", "most", "less", "least",
   "one", "two", "three", "four", "five", "six", "seven", "eight", "nine", "ten",
   "hundred", "thousand", "million", "billion", "number", "amount", "quantity", "size", "length",
   "width", "height", "weight", "price", "cost", "money", "dollar", "cent", "euro", "pound",
   "house", "home", "room", "door", "window", "wall", "floor", "ceiling", "bed", "chair", "table",
   "car", "bus", "train", "plane", "boat", "bike", "bicycle", "motorcycle", "truck", "taxi",
   "food", "water", "bread", "meat", "fish", "chicken", "beef", "pork", "vegetable", "fruit",
   "apple", "banana", "orange", "grape", "strawberry", "milk", "coffee", "tea", "juice", "beer",
   "wine", "cake", "cookie", "candy", "chocolate", "ice", "cream", "sugar", "salt", "pepper",
   "family", "mother", "father", "parent", "child", "son", "daughter", "brother", "sister",
   "grandmother", "grandfather", "uncle", "aunt", "cousin", "friend", "neighbor", "teacher",
   "student", "doctor", "nurse", "police", "firefighter", "engineer", "lawyer", "artist",
   "musician", "singer", "dancer", "actor", "writer", "journalist", "photographer", "cook",
   "waiter", "driver", "pilot", "sailor", "farmer", "worker", "manager", "boss", "employee",
   "company", "business", "office", "factory", "hospital", "school", "university", "library",
   "museum", "theater", "cinema", "restaurant", "hotel", "shop", "store", "market", "bank",
   "post", "office", "station", "airport", "park", "garden", "beach", "mountain", "river",
   "lake", "ocean", "sea", "forest", "desert", "city", "town", "village", "country", "world",
   "earth", "sky", "sun", "moon", "star", "cloud", "rain", "snow", "wind", "storm", "weather",
   "spring", "summer", "autumn", "winter", "season", "temperature", "climate", "nature",
   "animal", "dog", "cat", "bird", "fish", "horse", "cow", "pig", "sheep", "chicken", "duck",
   "elephant", "lion", "tiger", "bear", "wolf", "fox", "rabbit", "mouse", "snake", "spider",
   "tree", "flower", "grass", "leaf", "root", "branch", "fruit", "seed", "plant", "garden",
   "book", "page", "story", "novel", "magazine", "newspaper", "letter", "email", "message",
   "phone", "computer", "internet", "website", "television", "radio", "music", "song", "movie",
   "game", "sport", "football", "basketball", "tennis", "golf", "swimming", "running", "cycling",
   "dancing", "singing", "reading", "writing", "drawing", "painting", "photography", "cooking",
   "shopping", "traveling", "vacation", "holiday", "party", "celebration", "birthday", "wedding",
   "funeral", "meeting", "conference", "interview", "presentation", "speech", "lecture", "class",
   "lesson", "homework", "exam", "test", "grade", "score", "result", "success", "failure",
   "problem", "solution", "question", "answer", "idea", "opinion", "fact", "truth", "lie",
   "secret", "mystery", "adventure", "journey", "trip", "visit", "tour", "guide", "map",
   "direction", "way", "path", "road", "street", "address", "location", "place", "position",
   "job", "career", "profession", "work", "task", "project", "plan", "goal", "dream", "hope",
   "wish", "desire", "choice", "decision", "option", "possibility", "chance", "opportunity",
   "risk", "danger", "safety", "security", "protection", "help", "support", "assistance",
   "advice", "suggestion", "recommendation", "instruction", "rule", "law", "regulation",
   "policy", "agreement", "contract", "deal", "bargain", "discount", "sale", "offer",
   "request", "demand", "order", "command", "permission", "allowance", "freedom", "right",
   "responsibility", "duty", "obligation", "promise", "commitment", "loyalty", "trust",
   "honesty", "integrity", "character", "personality", "behavior", "attitude", "mood",
   "emotion", "feeling", "sensation", "experience", "memory", "thought", "mind", "brain",
   "heart", "soul", "spirit", "life", "death", "birth", "age", "health", "illness", "disease",
   "medicine", "drug", "treatment", "therapy", "cure", "recovery", "healing", "pain",
   "injury", "wound", "cut", "bruise", "burn", "fever", "cold", "flu", "headache", "stomach",
   "tooth", "eye", "ear", "nose", "mouth", "hand", "finger", "arm", "leg", "foot", "head",
   "face", "hair", "skin", "blood", "bone", "muscle", "nerve", "organ", "body", "human",
   "person", "people", "man", "woman", "boy", "girl", "baby", "adult", "teenager", "elderly"]

/-- The `advanced_words` list of `_analyze_vocabulary` (llama_analysis.py
483-497), transcribed in source order, duplicated block included. -/
def advancedWords : List String :=
  ["sophisticated", "comprehensive", "implementation", "paradigm", "methodology",
   "contemporary", "multifaceted", "stakeholders", "prioritize", "simultaneously",
   "fundamentally", "transformed", "revolution", "artificial", "intelligence",
   "healthcare", "systems", "regulatory", "frameworks", "nevertheless",
   "outweigh", "inherent", "properly", "managed", "consequently",
   "reevaluation", "traditional", "embracing", "technological", "innovation",
   "ethical", "considerations", "implications", "necessitate", "comprehensive",
   "paradigm", "methodology", "contemporary", "multifaceted", "stakeholders",
   "prioritize", "simultaneously", "fundamentally", "transformed", "revolution",
   "artificial", "intelligence", "healthcare", "systems", "regulatory", "frameworks",
   "nevertheless", "outweigh", "inherent", "properly", "managed", "consequently",
   "reevaluation", "traditional", "embracing", "technological", "innovation",
   "ethical", "considerations", "implications", "necessitate", "comprehensive"]

/-- The integer statistics `_analyze_vocabulary` computes from the
lower-cased word list (counts only; the score arithmetic lives in
`vocabScoreOfStats`). -/
structure VocabStats where
  wordCount : ℕ
  spellingErrors : ℕ
  advancedCount : ℕ
  uniqueWords : ℕ
  totalWordLength : ℕ
deriving DecidableEq

/-- The statistics of a text, extracted as `_analyze_vocabulary` does
(llama_analysis.py 388, 467-474, 499, 503, 519). -/
def vocabStats (text : String) : VocabStats where
  wordCount := (pyWords (pyLower text)).length
  spellingErrors :=
    ((pyWords (pyLower text)).filter (fun word =>
      let clean_word := String.mk (word.data.filter Char.isAlpha)
      clean_word != "" && !(commonWords.contains clean_word) &&
        decide (1 < clean_word.length))).length
  advancedCount :=
    ((pyWords (pyLower text)).filter (fun word =>
      advancedWords.contains word)).length
  uniqueWords := (pyWords (pyLower text)).eraseDups.length
  totalWordLength := ((pyWords (pyLower text)).map String.length).sum

/-- The arithmetic of `_analyze_vocabulary` (llama_analysis.py 476-536) as
a function of the statistics. -/
def vocabScoreOfStats (st : VocabStats) : ℚ :=
  if st.wordCount = 0 then 0
  else
    let base_score : ℚ := min 10 ((st.wordCount : ℚ) * 0.4)
    let spelling_penalty : ℚ := (st.spellingErrors : ℚ) * 2.5
    let advanced_bonus : ℚ := min 6 ((st.advancedCount : ℚ) * 1.5)
    let diversity_bonus : ℚ := min 4 ((st.uniqueWords : ℚ) * 0.15)
    let length_penalty : ℚ :=
      if st.wordCount < 2 then 15
      else if st.wordCount < 3 then 12
      else if st.wordCount < 5 then 8
      else if st.wordCount < 10 then 4
      else 0
    let avg_word_length : ℚ := (st.totalWordLength : ℚ) / (st.wordCount : ℚ)
    let sophistication_bonus : ℚ := min 2 ((avg_word_length - 4) * 0.5)
    let total_score := base_score + advanced_bonus + diversity_bonus +
      sophistication_bonus - spelling_penalty - length_penalty
    let min_score : ℚ :=
      if st.wordCount < 2 then max 0.1 ((st.wordCount : ℚ) * 0.1)
      else if st.wordCount < 3 then max 0.3 ((st.wordCount : ℚ) * 0.2)
      else if st.wordCount < 5 then max 0.5 ((st.wordCount : ℚ) * 0.3)
      else max 1 ((st.wordCount : ℚ) * 0.15)
    max min_score (min 20 total_score)

/-- `LLaMAAnalysisService._analyze_vocabulary` (llama_analysis.py
385-546), final score only: lower-case and split the text, count spelling
errors against the dictionary, add the capped bonuses and subtract the
penalties, then clamp between the length-based minimum and 20. -/
def analyzeVocabulary (text : String) : ℚ :=
  let words := pyWords (pyLower text)
  if words.length = 0 then 0
  else
    let spelling_errors := (words.filter (fun word =>
      let clean_word := String.mk (word.data.filter Char.isAlpha)
      clean_word != "" && !(commonWords.contains clean_word) &&
        decide (1 < clean_word.length))).length
    let base_score : ℚ := min 10 ((words.length : ℚ) * 0.4)
    let spelling_penalty : ℚ := (spelling_errors : ℚ) * 2.5
    let advanced_count := (words.filter (fun word =>
      advancedWords.contains word)).length
    let advanced_bonus : ℚ := min 6 ((advanced_count : ℚ) * 1.5)
    let unique_words := words.eraseDups.length
    let diversity_bonus : ℚ := min 4 ((unique_words : ℚ) * 0.15)
    let length_penalty : ℚ :=
      if words.length < 2 then 15
      else if words.length < 3 then 12
      else if words.length < 5 then 8
      else if words.length < 10 then 4
      else 0
    let avg_word_length : ℚ := ((words.map String.length).sum : ℚ) / (words.length : ℚ)
    let sophistication_bonus : ℚ := min 2 ((avg_word_length - 4) * 0.5)
    let total_score := base_score + advanced_bonus + diversity_bonus +
      sophistication_bonus - spelling_penalty - length_penalty
    let min_score : ℚ :=
      if words.length < 2 then max 0.1 ((words.length : ℚ) * 0.1)
      else if words.length < 3 then max 0.3 ((words.length : ℚ) * 0.2)
      else if words.length < 5 then max 0.5 ((words.length : ℚ) * 0.3)
      else max 1 ((words.length : ℚ) * 0.15)
    max min_score (min 20 total_score)

/-- A 134-word text ("a a ... a"): long enough that the
`max(1, len(words) * 0.15)` minimum of `_analyze_vocabulary` exceeds 20. -/
def longAText : String :=
  String.mk ((List.replicate 133 ['a', ' ']).flatten ++ ['a'])

/-- C1: `_fallback_evaluation` gives all four dimensions the same
word-count-thresholded base score (1 below 2 words, 3 below 5, 8 below 10,
else 15), sets `overall_score` to 4 times it, and labels the transcript
"A1" below 5 words and "B1" otherwise. -/
theorem fallback_evaluation_word_count_thresholds (t : String) :
    ((fallbackEvaluation t).vocabulary_score = (fallbackEvaluation t).grammar_score ∧
      (fallbackEvaluation t).fluency_score = (fallbackEvaluation t).grammar_score ∧
      (fallbackEvaluation t).comprehension_score = (fallbackEvaluation t).grammar_score) ∧
    ((pyWords t).length < 2 → (fallbackEvaluation t).grammar_score = 1) ∧
    (2 ≤ (pyWords t).length → (pyWords t).length < 5 →
      (fallbackEvaluation t).grammar_score = 3) ∧
    (5 ≤ (pyWords t).length → (pyWords t).length < 10 →
      (fallbackEvaluation t).grammar_score = 8) ∧
    (10 ≤ (pyWords t).length → (fallbackEvaluation t).grammar_score = 15) ∧
    (fallbackEvaluation t).overall_score = 4 * (fallbackEvaluation t).grammar_score ∧
    ((pyWords t).length < 5 → (fallbackEvaluation t).proficiency_level = "A1") ∧
    (5 ≤ (pyWords t).length → (fallbackEvaluation t).proficiency_level = "B1") := by
  unfold fallbackEvaluation
  dsimp only
  split_ifs with h1 h2 h3 <;>
    refine ⟨⟨rfl, rfl, rfl⟩, ?_, ?_, ?_, ?_, by ring, ?_, ?_⟩ <;>
    intros <;> first | rfl | omega

/-- Witness for C1 at the two-word transcript "hello there". -/
theorem fallback_evaluation_word_count_thresholds_witness :
    2 ≤ (pyWords "hello there").length ∧ (pyWords "hello there").length < 5 ∧
      (fallbackEvaluation "hello there").grammar_score = 3 ∧
      (fallbackEvaluation "hello there").proficiency_level = "A1" :=
  ⟨by decide, by decide,
    (fallback_evaluation_word_count_thresholds "hello there").2.2.1
      (by decide) (by decide),
    (fallback_evaluation_word_count_thresholds "hello there").2.2.2.2.2.2.1
      (by decide)⟩

/-- C10: `_determine_proficiency_level` is total onto the six CEFR labels
with thresholds 15, 25, 40, 55, 70, and is monotone in CEFR order. -/
theorem proficiency_level_total_monotone :
    (∀ s : ℚ,
      (determineProficiencyLevel s = "A1" ↔ s < 15) ∧
      (determineProficiencyLevel s = "A2" ↔ 15 ≤ s ∧ s < 25) ∧
      (determineProficiencyLevel s = "B1" ↔ 25 ≤ s ∧ s < 40) ∧
      (determineProficiencyLevel s = "B2" ↔ 40 ≤ s ∧ s < 55) ∧
      (determineProficiencyLevel s = "C1" ↔ 55 ≤ s ∧ s < 70) ∧
      (determineProficiencyLevel s = "C2" ↔ 70 ≤ s)) ∧
    (∀ s₁ s₂ : ℚ, s₁ ≤ s₂ →
      cefrIndex (determineProficiencyLevel s₁) ≤
        cefrIndex (determineProficiencyLevel s₂)) := by
  constructor
  · intro s
    unfold determineProficiencyLevel
    split_ifs <;>
      refine ⟨?_, ?_, ?_, ?_, ?_, ?_⟩ <;>
      (constructor <;> intro h) <;>
      (try obtain ⟨ha, hb⟩ := h) <;>
      (first
        | rfl
        | linarith
        | (constructor <;> linarith)
        | (exact absurd h (by decide)))
  · intro s₁ s₂ hle
    unfold determineProficiencyLevel
    split_ifs <;> (first | decide | (exfalso; linarith))

/-- Witness for C10 monotonicity at the pair (10, 80). -/
theorem proficiency_level_total_monotone_witness :
    (10 : ℚ) ≤ 80 ∧
      cefrIndex (determineProficiencyLevel 10) ≤
        cefrIndex (determineProficiencyLevel 80) :=
  ⟨by norm_num, proficiency_level_total_monotone.2 10 80 (by norm_num)⟩

/-- C2: on LLM failure the analysis falls back instead of failing: a raised
generation exception or unparseable JSON makes `_llm_based_evaluation`
return `_fallback_evaluation(transcript)`, and a failing
`analyze_conversation` body yields the fixed fallback `AnalysisResult`
(overall 5, grammar 1, vocabulary 1, fluency 1, comprehension 2, level
"A1") rather than propagating the exception. -/
theorem llm_failure_falls_back :
    (∀ (p : String → Option EvalJson) (t : String),
      llmBasedEvaluation (.error ()) p t = fallbackEvaluation t) ∧
    (∀ (r : String) (p : String → Option EvalJson) (t : String),
      p r = none → llmBasedEvaluation (.ok r) p t = fallbackEvaluation t) ∧
    ((analyzeConversation (.error ())).overall_score = 5 ∧
      (analyzeConversation (.error ())).grammar_score = 1 ∧
      (analyzeConversation (.error ())).vocabulary_score = 1 ∧
      (analyzeConversation (.error ())).fluency_score = 1 ∧
      (analyzeConversation (.error ())).comprehension_score = 2 ∧
      (analyzeConversation (.error ())).proficiency_level = "A1") := by
  refine ⟨fun p t => rfl, fun r p t hp => ?_, rfl, rfl, rfl, rfl, rfl, rfl⟩
  simp only [llmBasedEvaluation, hp]

/-- Witness for C2 with a parser that rejects everything. -/
theorem llm_failure_falls_back_witness :
    llmBasedEvaluation (.ok "not json") (fun _ => none) "hi there" =
      fallbackEvaluation "hi there" :=
  llm_failure_falls_back.2.1 "not json" (fun _ => none) "hi there" rfl

/-- C3: on the successful LLM path each of the four dimension scores is
clamped into [0, 25], `overall_score` is exactly their sum (hence at most
100), and the returned `AnalysisResult` always has `pronunciation_score`
0. -/
theorem llm_scores_clamped_and_summed :
    (∀ (r : String) (p : String → Option EvalJson) (t : String)
        (data : EvalJson), p r = some data →
      llmBasedEvaluation (.ok r) p t = llmSuccessEval data ∧
      (0 ≤ (llmSuccessEval data).grammar_score ∧
        (llmSuccessEval data).grammar_score ≤ 25) ∧
      (0 ≤ (llmSuccessEval data).vocabulary_score ∧
        (llmSuccessEval data).vocabulary_score ≤ 25) ∧
      (0 ≤ (llmSuccessEval data).fluency_score ∧
        (llmSuccessEval data).fluency_score ≤ 25) ∧
      (0 ≤ (llmSuccessEval data).comprehension_score ∧
        (llmSuccessEval data).comprehension_score ≤ 25) ∧
      (llmSuccessEval data).overall_score =
        (llmSuccessEval data).grammar_score +
          (llmSuccessEval data).vocabulary_score +
          (llmSuccessEval data).fluency_score +
          (llmSuccessEval data).comprehension_score ∧
      (llmSuccessEval data).overall_score ≤ 100) ∧
    (∀ body : Except Unit EvalDict,
      (analyzeConversation body).pronunciation_score = 0) := by
  have hclamp : ∀ x : ℚ, 0 ≤ clamp25 x ∧ clamp25 x ≤ 25 := by
    intro x
    unfold clamp25
    constructor
    · exact le_max_left 0 _
    · exact max_le (by norm_num) (min_le_left 25 x)
  constructor
  · intro r p t data hp
    have he : llmBasedEvaluation (.ok r) p t = llmSuccessEval data := by
      simp only [llmBasedEvaluation, hp]
    have h1 := hclamp (data.grammar_score.getD 0)
    have h2 := hclamp (data.vocabulary_score.getD 0)
    have h3 := hclamp (data.fluency_score.getD 0)
    have h4 := hclamp (data.comprehension_score.getD 0)
    refine ⟨he, h1, h2, h3, h4, rfl, ?_⟩
    have hov : (llmSuccessEval data).overall_score =
        clamp25 (data.grammar_score.getD 0) +
          clamp25 (data.vocabulary_score.getD 0) +
          clamp25 (data.fluency_score.getD 0) +
          clamp25 (data.comprehension_score.getD 0) := rfl
    rw [hov]
    linarith [h1.2, h2.2, h3.2, h4.2]
  · intro body
    cases body <;> rfl

/-- Witness for C3 with a parser producing a concrete JSON record. -/
theorem llm_scores_clamped_and_summed_witness :
    llmBasedEvaluation (.ok "resp")
        (fun _ => some ⟨some 30, some 10, some 10, some 10, some "B2", none⟩)
        "some transcript text" =
      llmSuccessEval ⟨some 30, some 10, some 10, some 10, some "B2", none⟩ ∧
    (llmSuccessEval
        (⟨some 30, some 10, some 10, some 10, some "B2", none⟩ : EvalJson)).overall_score
      ≤ 100 :=
  ⟨(llm_scores_clamped_and_summed.1 "resp"
      (fun _ => some ⟨some 30, some 10, some 10, some 10, some "B2", none⟩)
      "some transcript text"
      ⟨some 30, some 10, some 10, some 10, some "B2", none⟩ rfl).1,
    (llm_scores_clamped_and_summed.1 "resp"
      (fun _ => some ⟨some 30, some 10, some 10, some 10, some "B2", none⟩)
      "some transcript text"
      ⟨some 30, some 10, some 10, some 10, some "B2", none⟩ rfl).2.2.2.2.2.2⟩

/-- C7: recovery in the analysis pipeline is the single rule-based
substitution: every run of `_llm_based_evaluation` either is the
successful-parse value or is exactly `_fallback_evaluation(transcript)`
(no other recovery path), and `analyze_conversation` either builds the
result from the evaluation dictionary or returns the one fixed fallback
result. -/
theorem single_fallback_recovery :
    (∀ (gen : Except Unit String) (p : String → Option EvalJson)
        (t : String),
      (∃ data : EvalJson,
        llmBasedEvaluation gen p t = llmSuccessEval data) ∨
      llmBasedEvaluation gen p t = fallbackEvaluation t) ∧
    (∀ body : Except Unit EvalDict,
      (∃ e : EvalDict, analyzeConversation body = buildAnalysisResult e) ∨
      analyzeConversation body = errorFallbackResult) := by
  constructor
  · intro gen p t
    cases gen with
    | error e => exact Or.inr rfl
    | ok response =>
      cases hp : p response with
      | none =>
        right
        simp only [llmBasedEvaluation, hp]
      | some data =>
        left
        exact ⟨data, by simp only [llmBasedEvaluation, hp]⟩
  · intro body
    cases body with
    | error e => exact Or.inr rfl
    | ok e => exact Or.inl ⟨e, rfl⟩

/-- C4: the rule-based scoring is deterministic, independent of the
`context` argument, and a pure arithmetic function of word/sentence
statistics: `_enhanced_comprehension_analysis` factors through
`comprehensionStats` and `_fallback_evaluation` factors through the word
count. -/
theorem heuristic_scoring_deterministic (t : String) (c₁ c₂ : Option String) :
    enhancedComprehensionAnalysis t c₁ = enhancedComprehensionAnalysis t c₂ ∧
    enhancedComprehensionAnalysis t c₁ =
      comprehensionScoreOfStats (comprehensionStats t) ∧
    fallbackEvaluation t = fallbackEvalOfCount ((pyWords t).length) :=
  ⟨rfl, rfl, rfl⟩

/-- C5: the GPT service is selected iff `USE_GPT_ANALYSIS` is true and
`OPENAI_API_KEY` is truthy (otherwise LLaMA analyses the transcript); with
no API key the GPT client stays uninitialised, and
`GPTAnalysisService.analyze_conversation` then raises `RuntimeError`. -/
theorem service_selection_and_gpt_runtime_error :
    (∀ (u : Bool) (k : Option String),
      chooseAnalysisService u k = .gpt ↔ u = true ∧ pyTruthy k = true) ∧
    (∀ (u : Bool) (k : Option String),
      chooseAnalysisService u k ≠ .gpt → chooseAnalysisService u k = .llama) ∧
    (∀ (avail : Bool) (k : Option String),
      pyTruthy k = false → gptClientInit avail k = none) ∧
    (∀ callOutcome : Except Unit ParsedData,
      gptAnalyzeConversation none callOutcome = .error (.runtimeError
        "GPT client not initialized. Please provide OpenAI API key.")) := by
  refine ⟨fun u k => ?_, fun u k => ?_, fun avail k hk => ?_, fun c => rfl⟩
  · unfold chooseAnalysisService
    cases u <;> cases hk : pyTruthy k <;> simp_all
  · unfold chooseAnalysisService
    split <;> simp_all
  · unfold gptClientInit
    rw [hk]
    cases avail <;> rfl

/-- Witness for C5: no API key means the LLaMA service and a GPT
`RuntimeError`. -/
theorem service_selection_and_gpt_runtime_error_witness :
    pyTruthy none = false ∧ gptClientInit true none = none ∧
      gptAnalyzeConversation none (.error ()) = .error (.runtimeError
        "GPT client not initialized. Please provide OpenAI API key.") :=
  ⟨rfl, service_selection_and_gpt_runtime_error.2.2.1 true none rfl,
    service_selection_and_gpt_runtime_error.2.2.2 (.error ())⟩

/-- C8: if any database query fails, `get_user_progress` returns exactly
the fixed default dictionary (0 conversations, average 0.0, level "A1", no
last date, empty trends); with no evaluations (NULL average and level) the
successful path likewise reports average 0.0 and level "A1". -/
theorem user_progress_degrades_to_defaults :
    getUserProgress (.error ()) =
      { total_conversations := 0
        average_score := 0
        current_level := "A1"
        last_conversation_date := none
        grammar_trend := []
        vocabulary_trend := []
        fluency_trend := []
        pronunciation_trend := []
        comprehension_trend := [] } ∧
    (∀ q : ProgressQueries, q.avgScore = none → q.currentLevel = none →
      (getUserProgress (.ok q)).average_score = 0 ∧
        (getUserProgress (.ok q)).current_level = "A1") := by
  refine ⟨rfl, fun q ha hl => ⟨?_, ?_⟩⟩
  · show pyRound2 (pyOrRat q.avgScore 0) = 0
    rw [ha]
    show pyRound2 0 = 0
    simp only [pyRound2, roundHalfEven]
    norm_num
  · show pyOrStr q.currentLevel "A1" = "A1"
    rw [hl]
    rfl

/-- Witness for C8 with a concrete evaluation-free query result. -/
theorem user_progress_degrades_to_defaults_witness :
    (getUserProgress (.ok ⟨some 3, none, none, none, []⟩)).average_score = 0 ∧
      (getUserProgress (.ok ⟨some 3, none, none, none, []⟩)).current_level = "A1" :=
  user_progress_degrades_to_defaults.2 ⟨some 3, none, none, none, []⟩ rfl rfl

/-- C6: a GPT response with no brace-delimited JSON object and none of the
regex-extractable patterns parses to exactly the hand-tuned default record
(overall 50.0, grammar 12.5, vocabulary 10.0, fluency 10.0, pronunciation
7.5, comprehension 10.0, level "B1", empty `grammar_errors` and
`vocabulary_analysis`); where a score pattern such as "grammar score: N"
matches, the matched number replaces the default. -/
theorem gpt_fallback_parse_defaults :
    (∀ (jsonLoads : String → Option ParsedData) (text : String),
      jsonCandidate text = none →
      searchScore "overall" text = none →
      searchScore "grammar" text = none →
      searchScore "vocabulary" text = none →
      searchScore "fluency" text = none →
      searchScore "pronunciation" text = none →
      searchScore "comprehension" text = none →
      searchLevel text = none →
      parseGptResponse jsonLoads text =
        { overall_score := 50
          grammar_score := 12.5
          vocabulary_score := 10
          fluency_score := 10
          pronunciation_score := 7.5
          comprehension_score := 10
          proficiency_level := "B1"
          strengths := ["Good communication effort", "Clear expression"]
          areas_for_improvement := ["Continue practicing", "Expand vocabulary"]
          recommendations := ["Keep practicing regularly", "Read more English texts"]
          detailed_feedback := gptDefaultNotes
          grammar_errors := []
          vocabulary_analysis := [] }) ∧
    (∀ (text : String) (n : ℚ), searchScore "grammar" text = some n →
      (fallbackParse text).grammar_score = n) := by
  constructor
  · intro jsonLoads text hj h1 h2 h3 h4 h5 h6 h7
    simp only [parseGptResponse, hj]
    unfold fallbackParse
    rw [h1, h2, h3, h4, h5, h6, h7]
    rfl
  · intro text n hg
    show (searchScore "grammar" text).getD 12.5 = n
    rw [hg]
    rfl

/-- Witness for C6: a pattern-free response parses to the defaults, and
"grammar score: 20" overrides the grammar default with 20. -/
theorem gpt_fallback_parse_defaults_witness :
    (parseGptResponse (fun _ => none) "The student writes clearly without issue" =
      { overall_score := 50
        grammar_score := 12.5
        vocabulary_score := 10
        fluency_score := 10
        pronunciation_score := 7.5
        comprehension_score := 10
        proficiency_level := "B1"
        strengths := ["Good communication effort", "Clear expression"]
        areas_for_improvement := ["Continue practicing", "Expand vocabulary"]
        recommendations := ["Keep practicing regularly", "Read more English texts"]
        detailed_feedback := gptDefaultNotes
        grammar_errors := []
        vocabulary_analysis := [] }) ∧
    (fallbackParse "grammar score: 20").grammar_score = 20 :=
  ⟨gpt_fallback_parse_defaults.1 (fun _ => none)
      "The student writes clearly without issue"
      (by decide) (by decide) (by decide) (by decide) (by decide) (by decide)
      (by decide) (by decide),
    gpt_fallback_parse_defaults.2 "grammar score: 20" 20 (by decide)⟩

/-- The score of `_analyze_vocabulary` is never negative. -/
theorem vocabScoreOfStats_nonneg (st : VocabStats) : 0 ≤ vocabScoreOfStats st := by
  simp only [vocabScoreOfStats]
  split_ifs
  · norm_num
  all_goals
    exact le_trans (le_trans (by norm_num) (le_max_left _ _)) (le_max_left _ _)

/-- Up to 133 words the score of `_analyze_vocabulary` stays below 20 (the
minimum-score floor `max(1, n * 0.15)` only passes 20 at 134 words). -/
theorem vocabScoreOfStats_le20 (st : VocabStats) (h : st.wordCount ≤ 133) :
    vocabScoreOfStats st ≤ 20 := by
  have hwQ : (st.wordCount : ℚ) ≤ 133 := by exact_mod_cast h
  simp only [vocabScoreOfStats]
  split_ifs with h0 h1 h2 h3 h4
  · norm_num
  · have hq : (st.wordCount : ℚ) ≤ 1 := by exact_mod_cast Nat.le_of_lt_succ h1
    refine max_le (max_le (by norm_num) (by linarith)) (min_le_left _ _)
  · have hq : (st.wordCount : ℚ) ≤ 2 := by exact_mod_cast Nat.le_of_lt_succ h2
    refine max_le (max_le (by norm_num) (by linarith)) (min_le_left _ _)
  · have hq : (st.wordCount : ℚ) ≤ 4 := by
      exact_mod_cast (by omega : st.wordCount ≤ 4)
    refine max_le (max_le (by norm_num) (by linarith)) (min_le_left _ _)
  · refine max_le (max_le (by norm_num) (by linarith)) (min_le_left _ _)
  · refine max_le (max_le (by norm_num) (by linarith)) (min_le_left _ _)

/-- Counterexample to C9: the LLM path clamps each dimension to [0, 25],
not to the schema bounds, so a JSON `vocabulary_score` of 25 comes back as
25 > 20 (likewise fluency and comprehension); and on a 134-word text
`_analyze_vocabulary` itself returns more than 20, because its
minimum-score floor `max(1, len(words) * 0.15)` exceeds the cap. -/
theorem analysis_scores_schema_bounds_cex :
    (llmSuccessEval ⟨some 25, some 25, some 25, some 25, some "C2", none⟩).vocabulary_score > 20 ∧
    (llmSuccessEval ⟨some 25, some 25, some 25, some 25, some "C2", none⟩).fluency_score > 20 ∧
    (llmSuccessEval ⟨some 25, some 25, some 25, some 25, some "C2", none⟩).comprehension_score > 20 ∧
    analyzeVocabulary longAText > 20 := by
  refine ⟨?_, ?_, ?_, ?_⟩
  · show clamp25 ((some (25 : ℚ)).getD 0) > 20
    norm_num [clamp25, min_def, max_def]
  · show clamp25 ((some (25 : ℚ)).getD 0) > 20
    norm_num [clamp25, min_def, max_def]
  · show clamp25 ((some (25 : ℚ)).getD 0) > 20
    norm_num [clamp25, min_def, max_def]
  · have hstats : vocabStats longAText = ⟨134, 0, 0, 1, 134⟩ := by decide
    have hfact : analyzeVocabulary longAText =
        vocabScoreOfStats (vocabStats longAText) := rfl
    rw [hfact, hstats]
    norm_num [vocabScoreOfStats, min_def, max_def]

/-- C9 as amended: every dimension score of the successful LLM path lies
in [0, 25] (grammar therefore meets its schema bound of 25, while
vocabulary, fluency and comprehension can reach 25, above the schema's 20)
and `overall_score` is at most 100; `_analyze_vocabulary` is nonnegative
and stays at most 20 for texts of at most 133 words. -/
theorem analysis_scores_bounds :
    (∀ data : EvalJson,
      (0 ≤ (llmSuccessEval data).grammar_score ∧
        (llmSuccessEval data).grammar_score ≤ 25) ∧
      (0 ≤ (llmSuccessEval data).vocabulary_score ∧
        (llmSuccessEval data).vocabulary_score ≤ 25) ∧
      (0 ≤ (llmSuccessEval data).fluency_score ∧
        (llmSuccessEval data).fluency_score ≤ 25) ∧
      (0 ≤ (llmSuccessEval data).comprehension_score ∧
        (llmSuccessEval data).comprehension_score ≤ 25) ∧
      (llmSuccessEval data).overall_score ≤ 100) ∧
    (∀ text : String, 0 ≤ analyzeVocabulary text) ∧
    (∀ text : String, (pyWords (pyLower text)).length ≤ 133 →
      analyzeVocabulary text ≤ 20) := by
  have hclamp : ∀ x : ℚ, 0 ≤ clamp25 x ∧ clamp25 x ≤ 25 := by
    intro x
    unfold clamp25
    constructor
    · exact le_max_left 0 _
    · exact max_le (by norm_num) (min_le_left 25 x)
  refine ⟨fun data => ?_, fun text => ?_, fun text h => ?_⟩
  · have h1 := hclamp (data.grammar_score.getD 0)
    have h2 := hclamp (data.vocabulary_score.getD 0)
    have h3 := hclamp (data.fluency_score.getD 0)
    have h4 := hclamp (data.comprehension_score.getD 0)
    refine ⟨h1, h2, h3, h4, ?_⟩
    have hov : (llmSuccessEval data).overall_score =
        clamp25 (data.grammar_score.getD 0) +
          clamp25 (data.vocabulary_score.getD 0) +
          clamp25 (data.fluency_score.getD 0) +
          clamp25 (data.comprehension_score.getD 0) := rfl
    rw [hov]
    linarith [h1.2, h2.2, h3.2, h4.2]
  · exact vocabScoreOfStats_nonneg (vocabStats text)
  · exact vocabScoreOfStats_le20 (vocabStats text) h

/-- Witness for the amended C9 on the two-word text "hello world". -/
theorem analysis_scores_bounds_witness :
    (pyWords (pyLower "hello world")).length ≤ 133 ∧
      analyzeVocabulary "hello world" ≤ 20 :=
  ⟨by decide, analysis_scores_bounds.2.2 "hello world" (by decide)⟩
